import Mathlib

/-!
Shallow embedding of the shopping-cart / ticket state machine of the
infinity-bytes-bot repository (cogs/ticket_system.py), together with the
redeem-code format minted by cogs/loyalty_program.py.

Modelling conventions:
* Python dicts that behave as keyed collections (the cart, the products /
  orders / discounts / referrals JSON collections, the active-tickets
  registry) are association lists in insertion order; insertion of a fresh
  key appends, assignment to an existing key updates in place.
* Fields that Python reads through dict.get with a default are Options; the
  read sites apply the same default the source applies.
* Money amounts (floats in the source) are exact rationals.
* Timestamps are integers; "now" is an explicit parameter.
* Each handler is a pure function from its inputs to a result record that
  carries the new in-memory ticket state, the collections as persisted by
  the save calls the handler actually reaches, and the reported error (if
  any).  An error together with unchanged collections models a handler that
  returned before mutating / saving.
-/

/-- Association-list lookup, mirroring Python dict lookup d.get(k). -/
def lookup? {κ α : Type} [DecidableEq κ] (k : κ) : List (κ × α) → Option α
  | [] => none
  | (k', v) :: rest => if k' = k then some v else lookup? k rest

/-- In-place update of the value at an existing key (Python d[k] mutation);
leaves the list unchanged when the key is absent. -/
def updateKey {κ α : Type} [DecidableEq κ] (k : κ) (f : α → α) :
    List (κ × α) → List (κ × α)
  | [] => []
  | (k', v) :: rest =>
    if k' = k then (k', f v) :: rest else (k', v) :: updateKey k f rest

/-- Python dict assignment d[k] = v: update in place when the key exists,
append at the end otherwise. -/
def dictSet {κ α : Type} [DecidableEq κ] (k : κ) (v : α) (l : List (κ × α)) :
    List (κ × α) :=
  if (lookup? k l).isSome then updateKey k (fun _ => v) l else l ++ [(k, v)]

/-- One cart line: name and unit price are snapshots of the catalog taken
when the line was first added (ProductSelect.callback). -/
structure CartItem where
  name : String
  price : ℚ
  quantity : Nat
deriving DecidableEq, Repr

/-- A catalog entry as read from the products collection; stock -1 is the
infinite-stock sentinel used throughout the source. -/
structure Product where
  name : String
  price : ℚ
  stock : Int
deriving DecidableEq, Repr

/-- referral_info stored by the discount modal on a referral code. -/
structure ReferralInfo where
  code : String
  referrer_id : Nat
deriving DecidableEq, Repr

/-- The per-ticket in-memory state kept in bot.active_tickets.  Option
fields model dict keys that the source reads with .get defaults and that
cancel_order removes with .pop. -/
structure TicketState where
  creator_id : Nat
  category : String
  status : String
  cart : List (String × CartItem)
  discount : Option ℚ
  discount_reason : Option String
  referral_info : Option ReferralInfo
  order_id : Option String
  gift_recipient_id : Option Nat
deriving DecidableEq, Repr

/-- The state create_ticket_thread stores for a fresh ticket. -/
def initial_ticket_state (creatorId : Nat) (category : String) : TicketState :=
  { creator_id := creatorId
    category := category
    status := "Open"
    cart := []
    discount := some 0
    discount_reason := some "No Discount"
    referral_info := none
    order_id := none
    gift_recipient_id := none }

/-- One entry of the discounts collection.  dtype models the JSON "type"
key (read with default "promo"); max_uses none models the absent key that
the source defaults to float('inf'); expires_at none models an absent or
unparsable expiry, which the source treats as non-expiring. -/
structure DiscountInfo where
  dtype : Option String
  used : Bool
  generated_by : Option String
  is_active : Option Bool
  max_uses : Option Nat
  uses : Nat
  expires_at : Option Int
  discount_inr : Option ℚ
deriving DecidableEq, Repr

/-- An order record as written by ShoppingCartView.confirm. -/
structure Order where
  user_id : Nat
  items : List (String × CartItem)
  status : String
  discount : ℚ
  discount_reason : String
  gift_recipient_id : Option Nat
  timestamp : Int
  channel_id : Nat
deriving DecidableEq, Repr

/-- One entry of config role_based_discounts. -/
structure RoleDiscountCfg where
  role_id : Option Nat
  discount_percent : Option ℚ
deriving DecidableEq, Repr

/-- The slice of config.json the embedded handlers read. -/
structure BotConfig where
  new_user_discount_inr : Option ℚ
  role_based_discounts : List RoleDiscountCfg
deriving DecidableEq, Repr

/-- Python str.startswith, computed on the underlying character lists. -/
def strStartsWith (s pre : String) : Bool := pre.data.isPrefixOf s.data

/-- Python str() applied to an optional value: str(None) is "None". -/
def pyStr (o : Option String) : String :=
  match o with
  | some s => s
  | none => "None"

/-- Subtotal of the cart: sum over lines of unit price times quantity,
as computed by update_cart_embed and by confirm. -/
def cartSubtotal (cart : List (String × CartItem)) : ℚ :=
  (cart.map (fun kv => kv.2.price * (kv.2.quantity : ℚ))).sum

/-- The grand total rendered in the cart embed footer by update_cart_embed:
0 for an empty cart, otherwise max(0, subtotal - discount). -/
def update_cart_embed_total (cart : List (String × CartItem)) (discount : ℚ) : ℚ :=
  if cart = [] then 0 else max 0 (cartSubtotal cart - discount)

/-- Result of ProductSelect.callback: new ticket state plus reported error. -/
structure AddItemResult where
  ts : TicketState
  error : Option String
deriving DecidableEq, Repr

/-- ProductSelect.callback (the AddItem action): validates the product and
its stock against the fresh catalog, then increments the quantity of an
existing cart line or appends a fresh line with a catalog snapshot.  The
source performs no order_id check here. -/
def product_select_callback (products : List (String × Product))
    (ts : TicketState) (product_id : String) : AddItemResult :=
  match lookup? product_id products with
  | none => ⟨ts, some "Selected product not found or no longer exists."⟩
  | some product =>
    let current_quantity_in_cart : Nat :=
      ((lookup? product_id ts.cart).map CartItem.quantity).getD 0
    if product.stock ≠ -1 ∧ (product.stock : Int) ≤ (current_quantity_in_cart : Int) then
      ⟨ts, some "You cannot add more: all available stock is already in your cart."⟩
    else
      let cart' :=
        if (lookup? product_id ts.cart).isSome then
          updateKey product_id (fun it => { it with quantity := it.quantity + 1 }) ts.cart
        else
          ts.cart ++ [(product_id,
            { name := product.name, price := product.price, quantity := 1 })]
      ⟨{ ts with cart := cart' }, none⟩

/-- Result of DiscountCodeModal.on_submit: new ticket state, the discounts
collection as persisted (saved only on success), and the reported error. -/
structure ApplyCodeResult where
  ts : TicketState
  discounts : List (String × DiscountInfo)
  error : Option String
deriving DecidableEq, Repr

/-- Rejection gate for a redeem-type code (DiscountCodeModal.on_submit). -/
def redeem_reject (info : DiscountInfo) (userId : Nat) : Option String :=
  if info.used then some "That redemption code has already been used."
  else
    match info.generated_by with
    | some gb =>
      if ¬(toString userId = gb) then
        some "This redemption code was not generated for your account."
      else none
    | none => none

/-- Rejection gate for a promo-type code: inactive, max uses reached, or
expired (DiscountCodeModal.on_submit). -/
def promo_reject (info : DiscountInfo) (now : Int) : Option String :=
  if info.is_active.getD true = false then
    some "This promotional code is no longer active."
  else
    match info.max_uses with
    | some m =>
      if m ≤ info.uses then
        some "This promotional code has reached its maximum number of uses."
      else
        match info.expires_at with
        | some t => if t < now then some "This promotional code has expired." else none
        | none => none
    | none =>
      match info.expires_at with
      | some t => if t < now then some "This promotional code has expired." else none
      | none => none

/-- DiscountCodeModal.on_submit (the ApplyCode action).  The code argument
is already stripped and upper-cased as in the source.  referrals maps a
referral code to the referrer id rendered as a string; orders is the orders
collection; now is the current UTC timestamp. -/
def discount_modal_on_submit (code : String) (userId : Nat) (ts : TicketState)
    (referrals : List (String × String)) (orders : List (String × Order))
    (discounts_db : List (String × DiscountInfo)) (config : BotConfig)
    (now : Int) : ApplyCodeResult :=
  if 0 < ts.discount.getD 0 then
    ⟨ts, discounts_db, some "A discount has already been applied to this order."⟩
  else if strStartsWith code "REF-" then
    match lookup? code referrals with
    | none => ⟨ts, discounts_db, some "Invalid referral code. This code does not exist."⟩
    | some referrer_id_str =>
      match referrer_id_str.toNat? with
      | none => ⟨ts, discounts_db, some "Corrupted referral code data."⟩
      | some referrer_id =>
        if userId = referrer_id then
          ⟨ts, discounts_db, some "You cannot use your own referral code."⟩
        else if orders.any (fun kv => kv.2.user_id == userId && kv.2.status == "Delivered") then
          ⟨ts, discounts_db, some "Referral codes are for new customers only."⟩
        else
          match config.new_user_discount_inr with
          | none => ⟨ts, discounts_db, some "Referral program is not configured correctly."⟩
          | some amt =>
            if amt ≤ 0 then
              ⟨ts, discounts_db, some "Referral program discount amount must be positive."⟩
            else
              ⟨{ ts with
                  discount := some amt
                  discount_reason := some ("Referral Discount (Code: " ++ code ++ ")")
                  referral_info := some { code := code, referrer_id := referrer_id } },
                discounts_db, none⟩
  else
    match lookup? code discounts_db with
    | none => ⟨ts, discounts_db, some "That discount code is invalid or does not exist."⟩
    | some info =>
      let code_type := info.dtype.getD "promo"
      let staged : Except String (List (String × DiscountInfo)) :=
        if code_type = "redeem" then
          match redeem_reject info userId with
          | some m => .error m
          | none => .ok (updateKey code (fun d => { d with used := true }) discounts_db)
        else if code_type = "promo" then
          match promo_reject info now with
          | some m => .error m
          | none => .ok (updateKey code (fun d => { d with uses := d.uses + 1 }) discounts_db)
        else .error "Unknown discount code type."
      match staged with
      | .error m => ⟨ts, discounts_db, some m⟩
      | .ok staged_db =>
        match info.discount_inr with
        | none => ⟨ts, discounts_db, some "Discount amount not specified for this code."⟩
        | some amt =>
          if amt ≤ 0 then
            ⟨ts, discounts_db, some "Discount amount must be positive."⟩
          else
            ⟨{ ts with
                discount := some amt
                discount_reason := some ("Discount Code (" ++ code ++ ")") },
              staged_db, none⟩

/-- Stock re-validation loop at the top of ShoppingCartView.confirm;
returns the first per-product failure message, none when all lines pass. -/
def validate_stock (products : List (String × Product)) :
    List (String × CartItem) → Option String
  | [] => none
  | (pid, item) :: rest =>
    match lookup? pid products with
    | none => some ("Product not found in store: " ++ pid)
    | some p =>
      if p.stock ≠ -1 ∧ (p.stock : Int) < (item.quantity : Int) then
        some ("Insufficient stock for product: " ++ pid)
      else validate_stock products rest

/-- Sort key for role_based_discounts entries: r.get(discount_percent, 0). -/
def roleSortKey (r : RoleDiscountCfg) : ℚ := r.discount_percent.getD 0

/-- Descending comparison used to sort role_based_discounts (highest
percentage first). -/
def roleDescBool (a b : RoleDiscountCfg) : Bool := roleSortKey b ≤ roleSortKey a

/-- sorted(role_discounts_config, key=..., reverse=True): a stable sort,
highest discount_percent first. -/
def sorted_role_discounts (cfg : List RoleDiscountCfg) : List RoleDiscountCfg :=
  cfg.mergeSort roleDescBool

/-- The loop body of the tiered-pricing logic in confirm: walk the sorted
config and stop at the first entry with a truthy role_id, a present
discount_percent, and a role the user holds. -/
def pick_role_discount (userRoles : List Nat) :
    List RoleDiscountCfg → Option (Nat × ℚ)
  | [] => none
  | r :: rest =>
    match r.role_id, r.discount_percent with
    | some rid, some pct =>
      if rid ≠ 0 ∧ rid ∈ userRoles then some (rid, pct)
      else pick_role_discount userRoles rest
    | _, _ => pick_role_discount userRoles rest

/-- Order id allocation: "ORD" plus the zero-padded next counter value. -/
def order_id_of (n : Nat) : String :=
  let s := toString n
  "ORD" ++ String.mk (List.replicate (4 - s.length) '0') ++ s

/-- Result of ShoppingCartView.confirm: new ticket state, persisted counter
and orders collection, whether the cart view components were disabled, and
the reported error (if any). -/
structure ConfirmResult where
  ts : TicketState
  last_order_number : Nat
  orders : List (String × Order)
  viewDisabled : Bool
  error : Option String
deriving DecidableEq, Repr

/-- ShoppingCartView.confirm: empty-cart check, stock re-validation,
role/tier discount, component disabling, order-id allocation, order write,
then the payment-gateway lookup.  The order is persisted and order_id set
before the payment gateway is checked, so a missing gateway is reported
after the order already exists. -/
def confirm (ts : TicketState) (userId : Nat) (isMember : Bool)
    (userRoles : List Nat) (products : List (String × Product))
    (last_order_number : Nat) (orders : List (String × Order))
    (config : BotConfig) (channelId : Nat) (now : Int)
    (paymentGatewayLoaded : Bool) : ConfirmResult :=
  if ts.cart = [] then
    ⟨ts, last_order_number, orders, false,
      some "Your cart is empty. Cannot confirm an empty order."⟩
  else
    match validate_stock products ts.cart with
    | some msg => ⟨ts, last_order_number, orders, false, some msg⟩
    | none =>
      let final0 := ts.discount.getD 0
      let total_cart_value := cartSubtotal ts.cart
      let tier : Option (Nat × ℚ) :=
        if final0 = 0 ∧ isMember then
          pick_role_discount userRoles (sorted_role_discounts config.role_based_discounts)
        else none
      let applied : ℚ × Option String :=
        match tier with
        | some (rid, pct) =>
          let calculated := total_cart_value * (pct / 100)
          if final0 < calculated then
            (calculated,
              some (toString pct ++ "% Role Discount (for <@&" ++ toString rid ++ ">)"))
          else (final0, ts.discount_reason)
        | none => (final0, ts.discount_reason)
      let ts1 := { ts with discount := some applied.1, discount_reason := applied.2 }
      let new_order_number := last_order_number + 1
      let oid := order_id_of new_order_number
      let order : Order :=
        { user_id := userId
          items := ts1.cart
          status := "Pending Payment"
          discount := applied.1
          discount_reason := ts1.discount_reason.getD "No Discount"
          gift_recipient_id := ts1.gift_recipient_id
          timestamp := now
          channel_id := channelId }
      let orders' := dictSet oid order orders
      let ts2 := { ts1 with order_id := some oid }
      if paymentGatewayLoaded then
        ⟨ts2, new_order_number, orders', true, none⟩
      else
        ⟨ts2, new_order_number, orders', true,
          some "Critical Error: Payment gateway is not loaded."⟩

/-- Bool test for one list of characters occurring inside another, used for
the Python substring test "REDEEM-" in reason. -/
def listContainsSub (needle : List Char) : List Char → Bool
  | [] => needle.isEmpty
  | c :: rest => needle.isPrefixOf (c :: rest) || listContainsSub needle rest

/-- Python substring containment: needle in hay. -/
def strContainsSub (needle hay : String) : Bool :=
  listContainsSub needle.toList hay.toList

/-- Leftmost match of the regex used by cancel_order to pull the code out
of the discount reason: an opening parenthesis, one or more characters that
are not a closing parenthesis (greedy), then a closing parenthesis; the
returned value is the captured group. -/
def searchParenGroup : List Char → Option (List Char)
  | [] => none
  | c :: rest =>
    if c = '(' then
      let run := rest.takeWhile (fun ch => ch ≠ ')')
      let remainder := rest.dropWhile (fun ch => ch ≠ ')')
      if run.isEmpty then searchParenGroup rest
      else
        match remainder with
        | [] => searchParenGroup rest
        | _ :: _ => some run
    else searchParenGroup rest

/-- String wrapper of searchParenGroup: the captured code, if any. -/
def extract_code_from_reason (reason : String) : Option String :=
  (searchParenGroup reason.toList).map (fun l => String.mk l)

/-- Result of ShoppingCartView.cancel_order: new ticket state, persisted
orders and discounts collections, whether the cart components were
re-enabled, and the reported error (if any). -/
structure CancelResult where
  ts : TicketState
  orders : List (String × Order)
  discounts : List (String × DiscountInfo)
  buttonsReEnabled : Bool
  error : Option String
deriving DecidableEq, Repr

/-- The redeem-code reversal sub-step of cancel_order: when the discount
reason is truthy and mentions "REDEEM-", extract the code between the
parentheses; if that code exists in the discounts collection with type
"redeem", is marked used, and was generated by the acting user, flip it
back to unused. -/
def cancel_redeem_reversal (ts : TicketState) (userId : Nat)
    (discounts_db : List (String × DiscountInfo)) : List (String × DiscountInfo) :=
  let reasonTruthyWithRedeem : Bool :=
    match ts.discount_reason with
    | some r => (¬r.isEmpty : Bool) && strContainsSub "REDEEM-" r
    | none => false
  if reasonTruthyWithRedeem then
    match extract_code_from_reason (ts.discount_reason.getD "") with
    | some used_code =>
      match lookup? used_code discounts_db with
      | some d =>
        if d.dtype = some "redeem" ∧ d.used ∧ pyStr d.generated_by = toString userId then
          updateKey used_code (fun dd => { dd with used := false }) discounts_db
        else discounts_db
      | none => discounts_db
    | none => discounts_db
  else discounts_db

/-- ShoppingCartView.cancel_order: requires a linked order whose status is
exactly "Pending Payment"; marks it "Cancelled by User", possibly reverts a
redeem code, clears order_id / discount / discount_reason /
gift_recipient_id (dict.pop) while leaving the cart untouched, and
re-enables the cart components. -/
def cancel_order (ts : TicketState) (orders : List (String × Order))
    (discounts_db : List (String × DiscountInfo)) (userId : Nat) : CancelResult :=
  match ts.order_id with
  | none =>
    ⟨ts, orders, discounts_db, false,
      some "You can only cancel an order after it has been confirmed and before payment is received."⟩
  | some oid =>
    match lookup? oid orders with
    | some o =>
      if o.status = "Pending Payment" then
        let orders' := dictSet oid { o with status := "Cancelled by User" } orders
        let discounts' := cancel_redeem_reversal ts userId discounts_db
        let ts' :=
          { ts with
              order_id := none
              discount := none
              discount_reason := none
              gift_recipient_id := none }
        ⟨ts', orders', discounts', true, none⟩
      else
        ⟨ts, orders, discounts_db, false,
          some "This order can no longer be cancelled."⟩
    | none =>
      ⟨ts, orders, discounts_db, false,
        some "This order can no longer be cancelled."⟩

/-- The duplicate-ticket guard at the top of TicketSystem.create_ticket_thread:
walk the active-tickets registry; an Open ticket of the same creator whose
thread still exists blocks creation (returning the registry as it stands),
while an Open ticket of the same creator whose thread is gone is popped as
stale and the walk continues.  Returns the resulting registry and whether
creation was blocked. -/
def check_existing_tickets (userId : Nat) (threadExists : Nat → Bool) :
    List (Nat × TicketState) → List (Nat × TicketState) × Bool
  | [] => ([], false)
  | (tid, st) :: rest =>
    if st.creator_id = userId ∧ st.status = "Open" then
      if threadExists tid then ((tid, st) :: rest, true)
      else check_existing_tickets userId threadExists rest
    else
      let r := check_existing_tickets userId threadExists rest
      ((tid, st) :: r.1, r.2)

/-- Whether a role_based_discounts entry is well-formed (truthy role_id,
present percentage) and names a role the actor holds — exactly the loop
condition of the tiered-pricing logic in confirm. -/
def isHeldTier (userRoles : List Nat) (r : RoleDiscountCfg) : Bool :=
  match r.role_id, r.discount_percent with
  | some rid, some _ => decide (rid ≠ 0 ∧ rid ∈ userRoles)
  | _, _ => false

/-- The percentages of the configured tier roles the actor actually holds
(well-formed entries only), used to state the tier-discount claim. -/
def heldPercents (userRoles : List Nat) (cfg : List RoleDiscountCfg) : List ℚ :=
  (cfg.filter (isHeldTier userRoles)).map roleSortKey

/-! Sample concrete inputs used by counterexamples and witnesses. -/

/-- A catalog product with infinite stock. -/
def sampleProductA : Product := { name := "Alpha", price := 10, stock := -1 }

/-- A fresh BUY ticket whose order was already confirmed (order_id set). -/
def sampleTicketLocked : TicketState :=
  { initial_ticket_state 1 "BUY" with order_id := some "ORD0001" }

/-- A one-line cart holding one Alpha. -/
def sampleCartOneAlpha : List (String × CartItem) :=
  [("p1", { name := "Alpha", price := 10, quantity := 1 })]

/-- A fresh BUY ticket with one Alpha in the cart and no discount. -/
def sampleTicketReady : TicketState :=
  { initial_ticket_state 1 "BUY" with cart := sampleCartOneAlpha }

/-- A config with no referral amount and no role discounts. -/
def sampleConfigEmpty : BotConfig :=
  { new_user_discount_inr := none, role_based_discounts := [] }

theorem cancel_order_success_enabled (ts : TicketState)
    (orders_db : List (String × Order)) (db : List (String × DiscountInfo))
    (uid : Nat) (he : (cancel_order ts orders_db db uid).error = none) :
    (cancel_order ts orders_db db uid).buttonsReEnabled = true := by
  unfold cancel_order at he ⊢
  rcases ho : ts.order_id with _ | oid
  · rw [ho] at he
    simp at he
  · rw [ho] at he
    simp only [] at he ⊢
    rcases hl : lookup? oid orders_db with _ | o
    · rw [hl] at he
      simp at he
    · rw [hl] at he
      by_cases hst : o.status = "Pending Payment"
      · simp [hst]
      · simp [hst] at he

/-- A pending-payment order as written by confirm for sampleCartOneAlpha. -/
def sampleOrderPending : Order :=
  { user_id := 1
    items := sampleCartOneAlpha
    status := "Pending Payment"
    discount := 0
    discount_reason := "No Discount"
    gift_recipient_id := none
    timestamp := 0
    channel_id := 42 }

/-- A used redeem code generated by user 1, as minted by the loyalty
program and marked used by a prior ApplyCode. -/
def sampleRedeemInfo : DiscountInfo :=
  { dtype := some "redeem"
    used := true
    generated_by := some "1"
    is_active := none
    max_uses := none
    uses := 0
    expires_at := none
    discount_inr := some 1 }

/-- A confirmed ticket whose discount came from the sample redeem code. -/
def sampleTicketRedeemed : TicketState :=
  { sampleTicketLocked with discount_reason := some "Discount Code (REDEEM-ABC123)" }

/-- A live promo code worth 1 with two allowed uses and counter 0. -/
def samplePromoInfo : DiscountInfo :=
  { dtype := none
    used := false
    generated_by := none
    is_active := none
    max_uses := some 2
    uses := 0
    expires_at := none
    discount_inr := some 1 }

/-- A config granting role 5 a 10 percent tier discount. -/
def sampleConfigTier : BotConfig :=
  { new_user_discount_inr := none
    role_based_discounts := [{ role_id := some 5, discount_percent := some 10 }] }

/-! Helper lemmas about the association-list operations. -/

theorem lookup?_updateKey_self {κ α : Type} [DecidableEq κ] (k : κ) (f : α → α)
    (l : List (κ × α)) : lookup? k (updateKey k f l) = (lookup? k l).map f := by
  induction l with
  | nil => simp [lookup?, updateKey]
  | cons kv rest ih =>
    obtain ⟨k', v⟩ := kv
    by_cases h : k' = k
    · simp [lookup?, updateKey, h]
    · simp [lookup?, updateKey, h, ih]

theorem lookup?_updateKey_ne {κ α : Type} [DecidableEq κ] {q k : κ} (h : q ≠ k)
    (f : α → α) (l : List (κ × α)) : lookup? q (updateKey k f l) = lookup? q l := by
  induction l with
  | nil => simp [lookup?, updateKey]
  | cons kv rest ih =>
    obtain ⟨k', v⟩ := kv
    by_cases hk : k' = k
    · subst hk
      simp [lookup?, updateKey, Ne.symm h]
    · simp [lookup?, updateKey, hk, ih]

theorem lookup?_append_of_none {κ α : Type} [DecidableEq κ] {k : κ}
    {l : List (κ × α)} (h : lookup? k l = none) (l2 : List (κ × α)) :
    lookup? k (l ++ l2) = lookup? k l2 := by
  induction l with
  | nil => simp
  | cons kv rest ih =>
    obtain ⟨k', v⟩ := kv
    by_cases hk : k' = k
    · simp [lookup?, hk] at h
    · simp [lookup?, hk] at h ⊢
      exact ih h

theorem lookup?_dictSet_self {κ α : Type} [DecidableEq κ] (k : κ) (v : α)
    (l : List (κ × α)) : lookup? k (dictSet k v l) = some v := by
  unfold dictSet
  split
  · rename_i h
    rw [lookup?_updateKey_self]
    obtain ⟨w, hw⟩ := Option.isSome_iff_exists.mp h
    simp [hw]
  · rename_i h
    rw [lookup?_append_of_none (Option.not_isSome_iff_eq_none.mp h)]
    simp [lookup?]

/-- C7: while a discount is already applied (discount > 0), every ApplyCode
attempt is rejected up front and neither the ticket state nor the discounts
collection changes. -/
theorem discount_already_applied_rejects_all (code : String) (userId : Nat)
    (ts : TicketState) (referrals : List (String × String))
    (orders : List (String × Order)) (discounts_db : List (String × DiscountInfo))
    (config : BotConfig) (now : Int) (h : 0 < ts.discount.getD 0) :
    discount_modal_on_submit code userId ts referrals orders discounts_db config now =
      ⟨ts, discounts_db, some "A discount has already been applied to this order."⟩ := by
  unfold discount_modal_on_submit
  rw [if_pos h]

theorem discount_already_applied_rejects_all_witness :
    0 < (({ initial_ticket_state 1 "BUY" with discount := some 1 } : TicketState).discount.getD 0) ∧
    discount_modal_on_submit "SUMMER25" 2
        { initial_ticket_state 1 "BUY" with discount := some 1 } [] [] [] sampleConfigEmpty 0 =
      ⟨{ initial_ticket_state 1 "BUY" with discount := some 1 }, [],
        some "A discount has already been applied to this order."⟩ :=
  ⟨zero_lt_one,
    discount_already_applied_rejects_all "SUMMER25" 2
      { initial_ticket_state 1 "BUY" with discount := some 1 } [] [] [] sampleConfigEmpty 0
      zero_lt_one⟩

/-- C8: a successful AddItem increments only the quantity of a line already
in the cart (name and unit price keep their original snapshot), while a
product not yet in the cart is appended with quantity 1 and the name and
unit price of the current catalog entry. -/
theorem add_item_snapshot_semantics (products : List (String × Product))
    (ts : TicketState) (product_id : String) (p : Product)
    (hp : lookup? product_id products = some p) :
    (∀ item, lookup? product_id ts.cart = some item →
      (p.stock = -1 ∨ (item.quantity : Int) < p.stock) →
      (product_select_callback products ts product_id).error = none ∧
      (product_select_callback products ts product_id).ts.cart =
        updateKey product_id (fun it => { it with quantity := it.quantity + 1 }) ts.cart ∧
      lookup? product_id (product_select_callback products ts product_id).ts.cart =
        some { item with quantity := item.quantity + 1 }) ∧
    (lookup? product_id ts.cart = none →
      (p.stock = -1 ∨ 0 < p.stock) →
      (product_select_callback products ts product_id).error = none ∧
      (product_select_callback products ts product_id).ts.cart =
        ts.cart ++ [(product_id, { name := p.name, price := p.price, quantity := 1 })]) := by
  constructor
  · intro item hitem hstock
    have hq : ((lookup? product_id ts.cart).map CartItem.quantity).getD 0 = item.quantity := by
      rw [hitem]; rfl
    have hgate : ¬(p.stock ≠ -1 ∧
        (p.stock : Int) ≤ ((((lookup? product_id ts.cart).map CartItem.quantity).getD 0 : Nat) : Int)) := by
      rw [hq]
      rcases hstock with h | h
      · intro hc; exact hc.1 h
      · intro hc; omega
    have hsome : (lookup? product_id ts.cart).isSome := by rw [hitem]; rfl
    refine ⟨?_, ?_, ?_⟩
    · unfold product_select_callback
      rw [hp]
      simp only [hgate, if_false, if_neg hgate, hsome, if_pos]
    · unfold product_select_callback
      rw [hp]
      simp only [if_neg hgate, hsome, if_pos]
    · unfold product_select_callback
      rw [hp]
      simp only [if_neg hgate, hsome, if_pos]
      rw [lookup?_updateKey_self, hitem]
      rfl
  · intro hnone hstock
    have hgate : ¬(p.stock ≠ -1 ∧
        (p.stock : Int) ≤ ((((none : Option CartItem).map CartItem.quantity).getD 0 : Nat) : Int)) := by
      rcases hstock with h | h
      · intro hc; exact hc.1 h
      · intro hc
        simp only [Option.map_none', Option.getD_none, Nat.cast_zero] at hc
        omega
    constructor
    · unfold product_select_callback
      rw [hp, hnone]
      simp only [if_neg hgate]
    · unfold product_select_callback
      rw [hp, hnone]
      simp only [if_neg hgate]
      rfl

theorem add_item_snapshot_semantics_witness :
    ((lookup? "p1" [("p1", sampleProductA)] = some sampleProductA) ∧
      (sampleProductA.stock = -1 ∨ (0 : Int) < sampleProductA.stock)) ∧
    (product_select_callback [("p1", sampleProductA)] (initial_ticket_state 1 "BUY") "p1").ts.cart =
      (initial_ticket_state 1 "BUY").cart ++
        [("p1", { name := sampleProductA.name, price := sampleProductA.price, quantity := 1 })] :=
  ⟨⟨rfl, Or.inl rfl⟩,
    ((add_item_snapshot_semantics [("p1", sampleProductA)] (initial_ticket_state 1 "BUY") "p1"
      sampleProductA rfl).2 rfl (Or.inl rfl)).2⟩

/-- C9: for any cart and any non-negative applied discount, the grand total
rendered by update_cart_embed equals max(0, subtotal - discount) and is in
particular never negative, even when the discount exceeds the subtotal. -/
theorem grand_total_never_negative (cart : List (String × CartItem))
    (discount : ℚ) (hd : 0 ≤ discount) :
    update_cart_embed_total cart discount =
      max 0 (cartSubtotal cart - discount) ∧
    0 ≤ update_cart_embed_total cart discount := by
  constructor
  · unfold update_cart_embed_total
    split
    · rename_i h
      subst h
      have hsub : cartSubtotal [] = 0 := rfl
      rw [hsub]
      rw [max_eq_left (by linarith)]
    · rfl
  · unfold update_cart_embed_total
    split
    · exact le_refl 0
    · exact le_max_left 0 _

theorem grand_total_never_negative_witness :
    (0 : ℚ) ≤ 25 ∧
    update_cart_embed_total sampleCartOneAlpha 25 =
      max 0 (cartSubtotal sampleCartOneAlpha - 25) ∧
    0 ≤ update_cart_embed_total sampleCartOneAlpha 25 := by
  refine ⟨by decide, ?_, ?_⟩
  · exact (grand_total_never_negative sampleCartOneAlpha 25 (by decide)).1
  · exact (grand_total_never_negative sampleCartOneAlpha 25 (by decide)).2

/-- C3: cancel on a ticket whose linked order exists fails (with no state
change) whenever the order status is anything other than "Pending Payment",
and succeeds when the status is exactly "Pending Payment", marking the
order "Cancelled by User", clearing order_id, discount, discount_reason and
gift_recipient_id, and leaving the cart exactly as it was. -/
theorem cancel_pending_payment_only (ts : TicketState)
    (orders : List (String × Order)) (discounts_db : List (String × DiscountInfo))
    (userId : Nat) (oid : String) (o : Order)
    (hoid : ts.order_id = some oid) (ho : lookup? oid orders = some o) :
    (o.status ≠ "Pending Payment" →
      cancel_order ts orders discounts_db userId =
        ⟨ts, orders, discounts_db, false, some "This order can no longer be cancelled."⟩) ∧
    (o.status = "Pending Payment" →
      (cancel_order ts orders discounts_db userId).error = none ∧
      (cancel_order ts orders discounts_db userId).orders =
        dictSet oid { o with status := "Cancelled by User" } orders ∧
      lookup? oid (cancel_order ts orders discounts_db userId).orders =
        some { o with status := "Cancelled by User" } ∧
      (cancel_order ts orders discounts_db userId).ts.order_id = none ∧
      (cancel_order ts orders discounts_db userId).ts.discount = none ∧
      (cancel_order ts orders discounts_db userId).ts.discount_reason = none ∧
      (cancel_order ts orders discounts_db userId).ts.gift_recipient_id = none ∧
      (cancel_order ts orders discounts_db userId).ts.cart = ts.cart) := by
  constructor
  · intro hst
    unfold cancel_order
    rw [hoid]
    simp only [ho, if_neg hst]
  · intro hst
    unfold cancel_order
    rw [hoid]
    simp only [ho, if_pos hst, and_true, true_and]
    exact lookup?_dictSet_self oid _ orders

/-- C1 counterexample: a ticket whose order_id is set (a confirmed order)
on which the AddItem callback nevertheless succeeds and changes the cart:
the callback itself performs no order_id check. -/
theorem cart_lock_claim_counterexample :
    sampleTicketLocked.order_id ≠ none ∧
    (product_select_callback [("p1", sampleProductA)] sampleTicketLocked "p1").error = none ∧
    (product_select_callback [("p1", sampleProductA)] sampleTicketLocked "p1").ts.cart ≠
      sampleTicketLocked.cart :=
  ⟨by decide, rfl, by decide⟩

/-- C1 amended: the AddItem callback never reads order_id — its outcome on
a ticket with any order_id value is the outcome on the same ticket with the
original order_id, with order_id carried through unchanged.  The cart lock
after a confirmation is enforced at the UI layer instead: once confirm
passes its validation it disables the cart view components, and only a
successful cancel re-enables them. -/
theorem cart_lock_is_ui_only (products : List (String × Product))
    (ts : TicketState) (ord : Option String) (pid : String)
    (userId : Nat) (isMember : Bool) (userRoles : List Nat) (n : Nat)
    (orders : List (String × Order)) (config : BotConfig) (ch : Nat)
    (now : Int) (pg : Bool) (orders2 : List (String × Order))
    (discounts_db : List (String × DiscountInfo)) (userId2 : Nat) :
    (product_select_callback products { ts with order_id := ord } pid =
      ⟨{ (product_select_callback products ts pid).ts with order_id := ord },
        (product_select_callback products ts pid).error⟩) ∧
    (ts.cart ≠ [] → validate_stock products ts.cart = none →
      (confirm ts userId isMember userRoles products n orders config ch now pg).viewDisabled = true) ∧
    ((cancel_order ts orders2 discounts_db userId2).error = none →
      (cancel_order ts orders2 discounts_db userId2).buttonsReEnabled = true) := by
  refine ⟨?_, ?_, ?_⟩
  · unfold product_select_callback
    cases h : lookup? pid products with
    | none => rfl
    | some p =>
      simp only []
      split
      · rfl
      · split
        · rfl
        · rfl
  · intro hc hv
    unfold confirm
    rw [if_neg hc, hv]
    cases pg <;> rfl
  · exact cancel_order_success_enabled ts orders2 discounts_db userId2

/-- C2 counterexample: with a valid one-line cart and stock validation
passing, confirming while the payment gateway is unavailable reports a
failure, yet leaves order_id set and the freshly written order in the
orders collection: the failure does not leave the ticket state unmodified. -/
theorem confirm_failure_rollback_counterexample :
    validate_stock [("p1", sampleProductA)] sampleTicketReady.cart = none ∧
    ((confirm sampleTicketReady 1 false [] [("p1", sampleProductA)] 0 []
        sampleConfigEmpty 42 0 false).error).isSome = true ∧
    (confirm sampleTicketReady 1 false [] [("p1", sampleProductA)] 0 []
        sampleConfigEmpty 42 0 false).ts.order_id = some "ORD0001" ∧
    (lookup? "ORD0001" (confirm sampleTicketReady 1 false [] [("p1", sampleProductA)] 0 []
        sampleConfigEmpty 42 0 false).orders).isSome = true := by
  refine ⟨by decide, by decide, by decide, by decide⟩

/-- C2 amended: when confirm reports a failure, either the failure was a
validation rejection (empty cart, missing product, invalid or insufficient
stock) detected before anything was written — the ticket state, counter and
orders collection are exactly the inputs — or the failure is the missing
payment gateway, which is detected only after the order was persisted: then
order_id is set to the freshly allocated id, the order record is in the
collection, and the counter was incremented. -/
theorem confirm_failure_modes (ts : TicketState) (userId : Nat)
    (isMember : Bool) (userRoles : List Nat) (products : List (String × Product))
    (n : Nat) (orders : List (String × Order)) (config : BotConfig)
    (ch : Nat) (now : Int) (pg : Bool) (msg : String)
    (h : (confirm ts userId isMember userRoles products n orders config ch now pg).error = some msg) :
    ((confirm ts userId isMember userRoles products n orders config ch now pg).ts = ts ∧
      (confirm ts userId isMember userRoles products n orders config ch now pg).last_order_number = n ∧
      (confirm ts userId isMember userRoles products n orders config ch now pg).orders = orders) ∨
    (msg = "Critical Error: Payment gateway is not loaded." ∧
      (confirm ts userId isMember userRoles products n orders config ch now pg).ts.order_id =
        some (order_id_of (n + 1)) ∧
      (lookup? (order_id_of (n + 1))
        (confirm ts userId isMember userRoles products n orders config ch now pg).orders).isSome = true ∧
      (confirm ts userId isMember userRoles products n orders config ch now pg).last_order_number = n + 1) := by
  unfold confirm at h ⊢
  by_cases hc : ts.cart = []
  · rw [if_pos hc] at h ⊢
    left
    exact ⟨rfl, rfl, rfl⟩
  · rw [if_neg hc] at h ⊢
    rcases hv : validate_stock products ts.cart with _ | m
    · rw [hv] at h
      cases pg
      · right
        simp only [] at h ⊢
        refine ⟨(Option.some.inj h).symm, rfl, ?_, rfl⟩
        simp [lookup?_dictSet_self]
      · simp at h
    · rw [hv] at h
      left
      exact ⟨rfl, rfl, rfl⟩

theorem confirm_failure_modes_witness :
    (confirm sampleTicketLocked 1 false [] [] 0 [] sampleConfigEmpty 42 0 true).error =
      some "Your cart is empty. Cannot confirm an empty order." ∧
    (((confirm sampleTicketLocked 1 false [] [] 0 [] sampleConfigEmpty 42 0 true).ts =
        sampleTicketLocked ∧
      (confirm sampleTicketLocked 1 false [] [] 0 [] sampleConfigEmpty 42 0 true).last_order_number = 0 ∧
      (confirm sampleTicketLocked 1 false [] [] 0 [] sampleConfigEmpty 42 0 true).orders = []) ∨
    ("Your cart is empty. Cannot confirm an empty order." =
        "Critical Error: Payment gateway is not loaded." ∧
      (confirm sampleTicketLocked 1 false [] [] 0 [] sampleConfigEmpty 42 0 true).ts.order_id =
        some (order_id_of 1) ∧
      (lookup? (order_id_of 1)
        (confirm sampleTicketLocked 1 false [] [] 0 [] sampleConfigEmpty 42 0 true).orders).isSome = true ∧
      (confirm sampleTicketLocked 1 false [] [] 0 [] sampleConfigEmpty 42 0 true).last_order_number = 1)) :=
  ⟨rfl, confirm_failure_modes sampleTicketLocked 1 false [] [] 0 [] sampleConfigEmpty 42 0 true
    "Your cart is empty. Cannot confirm an empty order." rfl⟩

theorem cart_lock_is_ui_only_witness :
    (sampleTicketReady.cart ≠ [] ∧
      validate_stock [("p1", sampleProductA)] sampleTicketReady.cart = none) ∧
    (confirm sampleTicketReady 1 false [] [("p1", sampleProductA)] 0 []
      sampleConfigEmpty 42 0 true).viewDisabled = true :=
  ⟨⟨by decide, by decide⟩,
    (cart_lock_is_ui_only [("p1", sampleProductA)] sampleTicketReady none "p1"
      1 false [] 0 [] sampleConfigEmpty 42 0 true [] [] 1).2.1
      (by decide) (by decide)⟩

/-- C10: walking the active-ticket registry blocks creation exactly when
some registered ticket is Open, belongs to the requesting user, and its
thread still exists; and when creation is not blocked, precisely the user's
Open tickets whose thread is gone (stale entries) have been removed from
the registry instead of blocking. -/
theorem one_live_open_ticket_per_user (userId : Nat)
    (threadExists : Nat → Bool) (registry : List (Nat × TicketState)) :
    ((check_existing_tickets userId threadExists registry).2 = true ↔
      ∃ e ∈ registry, e.2.creator_id = userId ∧ e.2.status = "Open" ∧
        threadExists e.1 = true) ∧
    ((check_existing_tickets userId threadExists registry).2 = false →
      (check_existing_tickets userId threadExists registry).1 =
        registry.filter (fun e =>
          ¬(e.2.creator_id = userId ∧ e.2.status = "Open"))) := by
  induction registry with
  | nil => simp [check_existing_tickets]
  | cons e rest ih =>
    obtain ⟨tid, st⟩ := e
    by_cases hmatch : st.creator_id = userId ∧ st.status = "Open"
    · by_cases hex : threadExists tid = true
      · have hstep : check_existing_tickets userId threadExists ((tid, st) :: rest) =
            ((tid, st) :: rest, true) := by
          simp only [check_existing_tickets]
          rw [if_pos hmatch, if_pos hex]
        rw [hstep]
        constructor
        · constructor
          · intro _
            exact ⟨(tid, st), List.mem_cons_self _ _, hmatch.1, hmatch.2, hex⟩
          · intro _
            rfl
        · intro hb
          simp at hb
      · have hstep : check_existing_tickets userId threadExists ((tid, st) :: rest) =
            check_existing_tickets userId threadExists rest := by
          simp only [check_existing_tickets]
          rw [if_pos hmatch, if_neg hex]
        rw [hstep]
        constructor
        · rw [ih.1]
          constructor
          · rintro ⟨w, hw, h1, h2, h3⟩
            exact ⟨w, List.mem_cons_of_mem _ hw, h1, h2, h3⟩
          · rintro ⟨w, hw, h1, h2, h3⟩
            rcases List.mem_cons.mp hw with heq | hmem
            · rw [heq] at h3
              exact absurd h3 hex
            · exact ⟨w, hmem, h1, h2, h3⟩
        · intro hb
          rw [ih.2 hb]
          simp [List.filter_cons, hmatch]
    · have hstep : check_existing_tickets userId threadExists ((tid, st) :: rest) =
          ((tid, st) :: (check_existing_tickets userId threadExists rest).1,
            (check_existing_tickets userId threadExists rest).2) := by
        simp only [check_existing_tickets]
        rw [if_neg hmatch]
      rw [hstep]
      constructor
      · simp only []
        rw [ih.1]
        constructor
        · rintro ⟨w, hw, h1, h2, h3⟩
          exact ⟨w, List.mem_cons_of_mem _ hw, h1, h2, h3⟩
        · rintro ⟨w, hw, h1, h2, h3⟩
          rcases List.mem_cons.mp hw with heq | hmem
          · rw [heq] at h1 h2
            exact absurd ⟨h1, h2⟩ hmatch
          · exact ⟨w, hmem, h1, h2, h3⟩
      · intro hb
        simp only [] at hb ⊢
        rw [ih.2 hb, List.filter_cons, if_pos (decide_eq_true hmatch)]

theorem one_live_open_ticket_per_user_witness :
    (check_existing_tickets 7 (fun _ => true)
      [(100, initial_ticket_state 7 "BUY")]).2 = true :=
  (one_live_open_ticket_per_user 7 (fun _ => true)
    [(100, initial_ticket_state 7 "BUY")]).1.mpr
    ⟨(100, initial_ticket_state 7 "BUY"), List.mem_cons_self _ _, rfl, rfl, rfl⟩

theorem cancel_pending_payment_only_witness :
    ({ sampleTicketLocked with cart := sampleCartOneAlpha } : TicketState).order_id = some "ORD0001" ∧
    lookup? "ORD0001" [("ORD0001", sampleOrderPending)] = some sampleOrderPending ∧
    sampleOrderPending.status = "Pending Payment" ∧
    (cancel_order { sampleTicketLocked with cart := sampleCartOneAlpha }
        [("ORD0001", sampleOrderPending)] [] 1).error = none ∧
    (cancel_order { sampleTicketLocked with cart := sampleCartOneAlpha }
        [("ORD0001", sampleOrderPending)] [] 1).ts.cart =
      ({ sampleTicketLocked with cart := sampleCartOneAlpha } : TicketState).cart :=
  ⟨rfl, rfl, rfl,
    ((cancel_pending_payment_only { sampleTicketLocked with cart := sampleCartOneAlpha }
        [("ORD0001", sampleOrderPending)] [] 1 "ORD0001" sampleOrderPending rfl rfl).2 rfl).1,
    (((cancel_pending_payment_only { sampleTicketLocked with cart := sampleCartOneAlpha }
        [("ORD0001", sampleOrderPending)] [] 1 "ORD0001" sampleOrderPending rfl rfl).2 rfl).2.2.2.2.2.2.2)⟩

/-! String helper lemmas for the cancel-time redeem-code reversal. -/

theorem isPrefixOf_append_self (l t : List Char) : l.isPrefixOf (l ++ t) = true := by
  induction l with
  | nil => simp [List.isPrefixOf]
  | cons c cs ih => simp [List.isPrefixOf, ih]

theorem listContainsSub_infix (n pre rest : List Char) :
    listContainsSub n (pre ++ (n ++ rest)) = true := by
  induction pre with
  | nil =>
    cases n with
    | nil => cases rest <;> simp [listContainsSub]
    | cons c cs => simp [listContainsSub, isPrefixOf_append_self]
  | cons p ps ih => simp [listContainsSub, ih]

theorem takeWhile_append_of_all {p : Char → Bool} {l : List Char}
    (h : ∀ c ∈ l, p c = true) (r : List Char) :
    (l ++ r).takeWhile p = l ++ r.takeWhile p := by
  induction l with
  | nil => rfl
  | cons c cs ih =>
    have hc := h c (List.mem_cons_self _ _)
    simp [List.takeWhile_cons, hc,
      ih (fun x hx => h x (List.mem_cons_of_mem _ hx))]

theorem dropWhile_append_of_all {p : Char → Bool} {l : List Char}
    (h : ∀ c ∈ l, p c = true) (r : List Char) :
    (l ++ r).dropWhile p = r.dropWhile p := by
  induction l with
  | nil => rfl
  | cons c cs ih =>
    have hc := h c (List.mem_cons_self _ _)
    simp [List.dropWhile_cons, hc,
      ih (fun x hx => h x (List.mem_cons_of_mem _ hx))]

theorem searchParenGroup_skip {l : List Char} (h : ∀ c ∈ l, c ≠ '(')
    (r : List Char) : searchParenGroup (l ++ r) = searchParenGroup r := by
  induction l with
  | nil => rfl
  | cons c cs ih =>
    have hc : ¬(c = '(') := h c (List.mem_cons_self _ _)
    simp only [List.cons_append, searchParenGroup]
    rw [if_neg hc]
    exact ih (fun x hx => h x (List.mem_cons_of_mem _ hx))

theorem searchParenGroup_found {code rest : List Char} (hne : code ≠ [])
    (hnp : ∀ c ∈ code, c ≠ ')') :
    searchParenGroup ('(' :: (code ++ ')' :: rest)) = some code := by
  have hall : ∀ c ∈ code, (fun ch => (ch ≠ ')' : Bool)) c = true := by
    intro c hc
    simpa using hnp c hc
  simp only [searchParenGroup]
  rw [if_pos trivial, takeWhile_append_of_all hall, dropWhile_append_of_all hall]
  simp [List.takeWhile_cons, List.dropWhile_cons, hne]

theorem extract_code_structured (code : String) (hne : code.data ≠ [])
    (hnp : ∀ c ∈ code.data, c ≠ ')') :
    extract_code_from_reason ("Discount Code (" ++ code ++ ")") = some code := by
  unfold extract_code_from_reason
  have hdata : ("Discount Code (" ++ code ++ ")").toList =
      "Discount Code ".data ++ ('(' :: (code.data ++ ')' :: [])) := by
    show (("Discount Code (" ++ code) ++ ")").data = _
    rw [String.data_append, String.data_append]
    have h1 : ("Discount Code (" : String).data = "Discount Code ".data ++ ['('] := by decide
    have h2 : (")" : String).data = [')'] := by decide
    rw [h1, h2]
    simp
  rw [hdata, searchParenGroup_skip (by decide) _, searchParenGroup_found hne hnp]
  rfl

/-- C4: on a successful cancel, a discount that came from a redeem-type
code generated by the acting user and still marked used is flipped back to
unused in the discounts collection (other entries untouched); while a
discount that came from a code whose registry type is not "redeem" — in
particular a promo code, whose usage counter is therefore never
decremented — or whose reason does not mention "REDEEM-" (referral and
role/tier reasons) leaves the discounts collection exactly unchanged. -/
theorem cancel_redeem_reversal_semantics (ts : TicketState)
    (orders : List (String × Order)) (discounts_db : List (String × DiscountInfo))
    (userId : Nat) (oid : String) (o : Order)
    (hoid : ts.order_id = some oid) (ho : lookup? oid orders = some o)
    (hst : o.status = "Pending Payment") :
    (∀ code suffix d,
      ts.discount_reason = some ("Discount Code (" ++ code ++ ")") →
      code = "REDEEM-" ++ suffix →
      (∀ c ∈ code.data, c ≠ ')') →
      lookup? code discounts_db = some d →
      d.dtype = some "redeem" → d.used = true →
      d.generated_by = some (toString userId) →
      (cancel_order ts orders discounts_db userId).discounts =
        updateKey code (fun dd => { dd with used := false }) discounts_db ∧
      lookup? code (cancel_order ts orders discounts_db userId).discounts =
        some { d with used := false } ∧
      (∀ c2, c2 ≠ code →
        lookup? c2 (cancel_order ts orders discounts_db userId).discounts =
          lookup? c2 discounts_db)) ∧
    (∀ code d,
      ts.discount_reason = some ("Discount Code (" ++ code ++ ")") →
      code.data ≠ [] →
      (∀ c ∈ code.data, c ≠ ')') →
      lookup? code discounts_db = some d →
      ¬(d.dtype = some "redeem") →
      (cancel_order ts orders discounts_db userId).discounts = discounts_db) ∧
    (∀ rsn,
      ts.discount_reason = some rsn →
      strContainsSub "REDEEM-" rsn = false →
      (cancel_order ts orders discounts_db userId).discounts = discounts_db) := by
  have hdisc : (cancel_order ts orders discounts_db userId).discounts =
      cancel_redeem_reversal ts userId discounts_db := by
    unfold cancel_order
    rw [hoid]
    simp only [ho, if_pos hst]
  have hne_empty : ∀ code : String,
      ("Discount Code (" ++ code ++ ")").isEmpty = false := by
    intro code
    rw [Bool.eq_false_iff]
    intro h
    have h2 := congrArg String.data ((String.isEmpty_iff _).mp h)
    rw [String.data_append, String.data_append] at h2
    simp at h2
  refine ⟨?_, ?_, ?_⟩
  · intro code suffix d hr hcode hnp hld htype hused hgen
    have hne : code.data ≠ [] := by
      subst hcode
      rw [String.data_append]
      simp
    have hcont : strContainsSub "REDEEM-" ("Discount Code (" ++ code ++ ")") = true := by
      unfold strContainsSub
      show listContainsSub "REDEEM-".data (("Discount Code (" ++ code) ++ ")").data = true
      rw [String.data_append, String.data_append, hcode, String.data_append]
      rw [List.append_assoc, List.append_assoc]
      exact listContainsSub_infix _ _ _
    rw [hdisc]
    unfold cancel_redeem_reversal
    rw [hr]
    simp only [hne_empty code, hcont, Option.getD_some,
      extract_code_structured code hne hnp, hld, Bool.not_false, Bool.and_self]
    rw [if_pos (by decide : (decide ¬false = true && true) = true)]
    have hcondition : d.dtype = some "redeem" ∧ d.used = true ∧
        pyStr d.generated_by = toString userId := by
      refine ⟨htype, hused, ?_⟩
      rw [hgen]
      rfl
    rw [if_pos hcondition]
    refine ⟨rfl, ?_, ?_⟩
    · rw [lookup?_updateKey_self, hld]
      rfl
    · intro c2 hc2
      exact lookup?_updateKey_ne hc2 _ _
  · intro code d hr hne hnp hld htype
    rw [hdisc]
    unfold cancel_redeem_reversal
    rw [hr]
    by_cases hcont : strContainsSub "REDEEM-" ("Discount Code (" ++ code ++ ")") = true
    · simp only [hne_empty code, hcont, Option.getD_some,
        extract_code_structured code hne hnp, hld, Bool.not_false, Bool.and_self]
      rw [if_pos (by decide : (decide ¬false = true && true) = true)]
      rw [if_neg (fun h => htype h.1)]
    · have hcf : strContainsSub "REDEEM-" ("Discount Code (" ++ code ++ ")") = false :=
        Bool.eq_false_iff.mpr hcont
      simp only [hcf, Bool.and_false]
      rfl
  · intro rsn hr hcont
    rw [hdisc]
    unfold cancel_redeem_reversal
    rw [hr]
    simp only [hcont, Bool.and_false]
    rfl

theorem cancel_redeem_reversal_semantics_witness :
    lookup? "REDEEM-ABC123"
      (cancel_order sampleTicketRedeemed [("ORD0001", sampleOrderPending)]
        [("REDEEM-ABC123", sampleRedeemInfo)] 1).discounts =
      some { sampleRedeemInfo with used := false } :=
  ((cancel_redeem_reversal_semantics sampleTicketRedeemed
      [("ORD0001", sampleOrderPending)] [("REDEEM-ABC123", sampleRedeemInfo)] 1
      "ORD0001" sampleOrderPending rfl rfl rfl).1
    "REDEEM-ABC123" "ABC123" sampleRedeemInfo (by decide) (by decide) (by decide)
    rfl rfl rfl (by decide)).2.1

/-! Helper lemmas for the promo-code path of DiscountCodeModal.on_submit. -/

theorem promo_submit_success (c : String) (u : Nat) (ts : TicketState)
    (referrals : List (String × String)) (orders : List (String × Order))
    (db : List (String × DiscountInfo)) (config : BotConfig) (now : Int)
    (d : DiscountInfo) (m : Nat) (a : ℚ)
    (hts : ts.discount.getD 0 = 0)
    (href : strStartsWith c "REF-" = false)
    (hld : lookup? c db = some d)
    (htype : d.dtype.getD "promo" = "promo")
    (hact : d.is_active.getD true = true)
    (hmax : d.max_uses = some m)
    (hcnt : d.uses < m)
    (hexp : d.expires_at = none)
    (hamt : d.discount_inr = some a)
    (hpos : 0 < a) :
    discount_modal_on_submit c u ts referrals orders db config now =
      { ts := { ts with
            discount := some a
            discount_reason := some ("Discount Code (" ++ c ++ ")") }
        discounts := updateKey c (fun dd => { dd with uses := dd.uses + 1 }) db
        error := none } := by
  have h0 : ¬(0 < ts.discount.getD 0) := by
    rw [hts]
    exact lt_irrefl 0
  have hpr : promo_reject d now = none := by
    unfold promo_reject
    rw [if_neg (by rw [hact]; simp)]
    rw [hmax]
    simp only []
    rw [if_neg (Nat.not_le.mpr hcnt), hexp]
  unfold discount_modal_on_submit
  rw [if_neg h0]
  simp only [href, Bool.false_eq_true, if_false, hld]
  simp only [htype]
  rw [if_neg (by decide : ¬(("promo" : String) = "redeem")), if_pos trivial, hpr]
  simp only [hamt]
  rw [if_neg (not_le.mpr hpos)]

theorem promo_submit_rejected (c : String) (u : Nat) (ts : TicketState)
    (referrals : List (String × String)) (orders : List (String × Order))
    (db : List (String × DiscountInfo)) (config : BotConfig) (now : Int)
    (d : DiscountInfo) (m : String)
    (hts : ts.discount.getD 0 = 0)
    (href : strStartsWith c "REF-" = false)
    (hld : lookup? c db = some d)
    (htype : d.dtype.getD "promo" = "promo")
    (hrej : promo_reject d now = some m) :
    discount_modal_on_submit c u ts referrals orders db config now =
      ⟨ts, db, some m⟩ := by
  have h0 : ¬(0 < ts.discount.getD 0) := by
    rw [hts]
    exact lt_irrefl 0
  unfold discount_modal_on_submit
  rw [if_neg h0]
  simp only [href, Bool.false_eq_true, if_false, hld]
  simp only [htype]
  rw [if_neg (by decide : ¬(("promo" : String) = "redeem")), if_pos trivial, hrej]

theorem promo_reject_isSome_of_inactive (d : DiscountInfo) (now : Int)
    (h : d.is_active.getD true = false) : (promo_reject d now).isSome = true := by
  unfold promo_reject
  rw [if_pos h]
  rfl

theorem promo_reject_isSome_of_max (d : DiscountInfo) (now : Int) (m : Nat)
    (hm : d.max_uses = some m) (h : m ≤ d.uses) :
    (promo_reject d now).isSome = true := by
  unfold promo_reject
  by_cases hact : d.is_active.getD true = false
  · rw [if_pos hact]
    rfl
  · rw [if_neg hact, hm]
    simp only [if_pos h]
    rfl

theorem promo_reject_isSome_of_expired (d : DiscountInfo) (now : Int) (t : Int)
    (ht : d.expires_at = some t) (h : t < now) :
    (promo_reject d now).isSome = true := by
  unfold promo_reject
  by_cases hact : d.is_active.getD true = false
  · rw [if_pos hact]
    rfl
  · rw [if_neg hact]
    cases hm : d.max_uses with
    | none =>
      simp only [ht, if_pos h]
      rfl
    | some m =>
      by_cases hle : m ≤ d.uses
      · simp only [if_pos hle]
        rfl
      · simp only [if_neg hle, ht, if_pos h]
        rfl

/-- C6: a promo code with max_uses = 2 and counter 0 succeeds on the first
two ApplyCode attempts across distinct tickets, each success persisting the
incremented counter, and the third attempt is rejected with no state
change, leaving the persisted counter at 2; and in general a promo code is
rejected, with ticket state and discounts collection unchanged, whenever it
is inactive, its counter has reached its configured max uses, or its expiry
timestamp has passed. -/
theorem promo_max_uses_two_lifecycle (c : String) (d : DiscountInfo)
    (db : List (String × DiscountInfo)) (a : ℚ) (u1 u2 u3 : Nat)
    (t1 t2 t3 : TicketState) (referrals : List (String × String))
    (orders : List (String × Order)) (config : BotConfig) (now : Int)
    (href : strStartsWith c "REF-" = false)
    (hld : lookup? c db = some d)
    (htype : d.dtype.getD "promo" = "promo")
    (hact : d.is_active.getD true = true)
    (hmax : d.max_uses = some 2)
    (huses : d.uses = 0)
    (hexp : d.expires_at = none)
    (hamt : d.discount_inr = some a)
    (hpos : 0 < a)
    (ht1 : t1.discount.getD 0 = 0)
    (ht2 : t2.discount.getD 0 = 0)
    (ht3 : t3.discount.getD 0 = 0) :
    let r1 := discount_modal_on_submit c u1 t1 referrals orders db config now
    let r2 := discount_modal_on_submit c u2 t2 referrals orders r1.discounts config now
    let r3 := discount_modal_on_submit c u3 t3 referrals orders r2.discounts config now
    (r1.error = none ∧ r1.ts.discount = some a ∧
      lookup? c r1.discounts = some { d with uses := 1 }) ∧
    (r2.error = none ∧ r2.ts.discount = some a ∧
      lookup? c r2.discounts = some { d with uses := 2 }) ∧
    (r3.error.isSome = true ∧ r3.ts = t3 ∧ r3.discounts = r2.discounts) ∧
    (∀ (u : Nat) (ts : TicketState) (db2 : List (String × DiscountInfo))
        (d2 : DiscountInfo),
      ts.discount.getD 0 = 0 →
      lookup? c db2 = some d2 →
      d2.dtype.getD "promo" = "promo" →
      (d2.is_active.getD true = false ∨
        (∃ m2, d2.max_uses = some m2 ∧ m2 ≤ d2.uses) ∨
        (∃ t, d2.expires_at = some t ∧ t < now)) →
      (discount_modal_on_submit c u ts referrals orders db2 config now).ts = ts ∧
      (discount_modal_on_submit c u ts referrals orders db2 config now).discounts = db2 ∧
      (discount_modal_on_submit c u ts referrals orders db2 config now).error.isSome = true) := by
  intro r1 r2 r3
  have e1 := promo_submit_success c u1 t1 referrals orders db config now d 2 a
    ht1 href hld htype hact hmax (by simp [huses]) hexp hamt hpos
  have hld1 : lookup? c (updateKey c (fun dd => { dd with uses := dd.uses + 1 }) db) =
      some { d with uses := d.uses + 1 } := by
    rw [lookup?_updateKey_self, hld]
    rfl
  have e2 := promo_submit_success c u2 t2 referrals orders
    (updateKey c (fun dd => { dd with uses := dd.uses + 1 }) db) config now
    { d with uses := d.uses + 1 } 2 a
    ht2 href hld1 htype hact hmax (by simp [huses]) hexp hamt hpos
  have hld2 : lookup? c (updateKey c (fun dd => { dd with uses := dd.uses + 1 })
        (updateKey c (fun dd => { dd with uses := dd.uses + 1 }) db)) =
      some { d with uses := d.uses + 1 + 1 } := by
    rw [lookup?_updateKey_self, hld1]
    rfl
  have hrej3 : (promo_reject { d with uses := d.uses + 1 + 1 } now).isSome = true :=
    promo_reject_isSome_of_max _ now 2 hmax (by simp [huses])
  obtain ⟨msg, hmsg⟩ := Option.isSome_iff_exists.mp hrej3
  have e3 := promo_submit_rejected c u3 t3 referrals orders
    (updateKey c (fun dd => { dd with uses := dd.uses + 1 })
      (updateKey c (fun dd => { dd with uses := dd.uses + 1 }) db)) config now
    { d with uses := d.uses + 1 + 1 } msg
    ht3 href hld2 htype hmsg
  have hr1 : r1 = ⟨{ t1 with discount := some a, discount_reason := some ("Discount Code (" ++ c ++ ")") }, updateKey c (fun dd => { dd with uses := dd.uses + 1 }) db, none⟩ := e1
  have hr2 : r2 = ⟨{ t2 with discount := some a, discount_reason := some ("Discount Code (" ++ c ++ ")") }, updateKey c (fun dd => { dd with uses := dd.uses + 1 }) (updateKey c (fun dd => { dd with uses := dd.uses + 1 }) db), none⟩ := by
    show discount_modal_on_submit c u2 t2 referrals orders r1.discounts config now = _
    rw [hr1]
    exact e2
  refine ⟨?_, ?_, ?_, ?_⟩
  · rw [hr1]
    refine ⟨rfl, rfl, ?_⟩
    rw [hld1, huses]
  · rw [hr2]
    refine ⟨rfl, rfl, ?_⟩
    rw [hld2, huses]
  · have hr3 : r3 = ⟨t3, updateKey c (fun dd => { dd with uses := dd.uses + 1 }) (updateKey c (fun dd => { dd with uses := dd.uses + 1 }) db), some msg⟩ := by
      show discount_modal_on_submit c u3 t3 referrals orders r2.discounts config now = _
      rw [hr2]
      exact e3
    rw [hr3, hr2]
    exact ⟨rfl, rfl, rfl⟩
  · intro u ts db2 d2 hts hld2b htype2 hcase
    have hsome : (promo_reject d2 now).isSome = true := by
      rcases hcase with h | ⟨m2, hm2, hle⟩ | ⟨t, ht, hlt⟩
      · exact promo_reject_isSome_of_inactive d2 now h
      · exact promo_reject_isSome_of_max d2 now m2 hm2 hle
      · exact promo_reject_isSome_of_expired d2 now t ht hlt
    obtain ⟨m2, hm2⟩ := Option.isSome_iff_exists.mp hsome
    have er := promo_submit_rejected c u ts referrals orders db2 config now d2 m2
      hts href hld2b htype2 hm2
    rw [er]
    exact ⟨rfl, rfl, rfl⟩

theorem promo_max_uses_two_lifecycle_witness :
    (discount_modal_on_submit "SUMMER25" 1 (initial_ticket_state 1 "BUY") [] []
      [("SUMMER25", samplePromoInfo)] sampleConfigEmpty 0).error = none ∧
    lookup? "SUMMER25" (discount_modal_on_submit "SUMMER25" 1 (initial_ticket_state 1 "BUY")
      [] [] [("SUMMER25", samplePromoInfo)] sampleConfigEmpty 0).discounts =
      some { samplePromoInfo with uses := 1 } :=
  ⟨(promo_max_uses_two_lifecycle "SUMMER25" samplePromoInfo
      [("SUMMER25", samplePromoInfo)] 1 1 2 3
      (initial_ticket_state 1 "BUY") (initial_ticket_state 2 "BUY") (initial_ticket_state 3 "BUY")
      [] [] sampleConfigEmpty 0 (by decide) rfl rfl rfl rfl rfl rfl rfl
      zero_lt_one rfl rfl rfl).1.1,
    (promo_max_uses_two_lifecycle "SUMMER25" samplePromoInfo
      [("SUMMER25", samplePromoInfo)] 1 1 2 3
      (initial_ticket_state 1 "BUY") (initial_ticket_state 2 "BUY") (initial_ticket_state 3 "BUY")
      [] [] sampleConfigEmpty 0 (by decide) rfl rfl rfl rfl rfl rfl rfl
      zero_lt_one rfl rfl rfl).1.2.2⟩

/-! Helper lemmas for the role/tier discount logic of confirm. -/

theorem roleDescBool_trans (a b c : RoleDiscountCfg)
    (h1 : roleDescBool a b = true) (h2 : roleDescBool b c = true) :
    roleDescBool a c = true := by
  unfold roleDescBool at h1 h2 ⊢
  rw [decide_eq_true_iff] at h1 h2 ⊢
  exact le_trans h2 h1

theorem roleDescBool_total (a b : RoleDiscountCfg) :
    (roleDescBool a b || roleDescBool b a) = true := by
  unfold roleDescBool
  rcases le_total (roleSortKey a) (roleSortKey b) with h | h
  · rw [decide_eq_true h]
    simp
  · rw [decide_eq_true h]
    simp

theorem pick_role_none (ur : List Nat) (l : List RoleDiscountCfg)
    (h : pick_role_discount ur l = none) : ∀ r ∈ l, isHeldTier ur r = false := by
  induction l with
  | nil => intro r hr; cases hr
  | cons r rest ih =>
    intro r2 hr2
    rcases hrid : r.role_id with _ | rid
    · unfold pick_role_discount at h
      rw [hrid] at h
      rcases List.mem_cons.mp hr2 with heq | hmem
      · subst heq
        unfold isHeldTier
        rw [hrid]
      · exact ih h r2 hmem
    · rcases hpct : r.discount_percent with _ | pct
      · unfold pick_role_discount at h
        rw [hrid, hpct] at h
        rcases List.mem_cons.mp hr2 with heq | hmem
        · subst heq
          unfold isHeldTier
          rw [hrid, hpct]
        · exact ih h r2 hmem
      · unfold pick_role_discount at h
        rw [hrid, hpct] at h
        simp only [] at h
        by_cases hcond : rid ≠ 0 ∧ rid ∈ ur
        · rw [if_pos hcond] at h
          cases h
        · rw [if_neg hcond] at h
          rcases List.mem_cons.mp hr2 with heq | hmem
          · subst heq
            unfold isHeldTier
            rw [hrid, hpct]
            exact decide_eq_false hcond
          · exact ih h r2 hmem

theorem pick_role_some (ur : List Nat) (l : List RoleDiscountCfg)
    (rid : Nat) (pct : ℚ)
    (hp : l.Pairwise (fun a b => roleDescBool a b = true))
    (h : pick_role_discount ur l = some (rid, pct)) :
    (∃ r ∈ l, r.role_id = some rid ∧ r.discount_percent = some pct ∧
      isHeldTier ur r = true) ∧
    (∀ r2 ∈ l, isHeldTier ur r2 = true → roleSortKey r2 ≤ pct) := by
  induction l with
  | nil => cases h
  | cons r rest ih =>
    have hp2 := (List.pairwise_cons.mp hp).2
    have hphead := (List.pairwise_cons.mp hp).1
    rcases hrid : r.role_id with _ | rid0
    · have hrec : pick_role_discount ur (r :: rest) = pick_role_discount ur rest := by
        simp only [pick_role_discount]
        rw [hrid]
      rw [hrec] at h
      obtain ⟨⟨w, hw, hw1, hw2, hw3⟩, hbound⟩ := ih hp2 h
      refine ⟨⟨w, List.mem_cons_of_mem _ hw, hw1, hw2, hw3⟩, ?_⟩
      intro r2 hr2 hheld
      rcases List.mem_cons.mp hr2 with heq | hmem
      · subst heq
        unfold isHeldTier at hheld
        rw [hrid] at hheld
        cases hheld
      · exact hbound r2 hmem hheld
    · rcases hpct : r.discount_percent with _ | pct0
      · have hrec : pick_role_discount ur (r :: rest) = pick_role_discount ur rest := by
          simp only [pick_role_discount]
          rw [hrid, hpct]
        rw [hrec] at h
        obtain ⟨⟨w, hw, hw1, hw2, hw3⟩, hbound⟩ := ih hp2 h
        refine ⟨⟨w, List.mem_cons_of_mem _ hw, hw1, hw2, hw3⟩, ?_⟩
        intro r2 hr2 hheld
        rcases List.mem_cons.mp hr2 with heq | hmem
        · subst heq
          unfold isHeldTier at hheld
          rw [hrid, hpct] at hheld
          cases hheld
        · exact hbound r2 hmem hheld
      · by_cases hcond : rid0 ≠ 0 ∧ rid0 ∈ ur
        · have hres : pick_role_discount ur (r :: rest) = some (rid0, pct0) := by
            simp only [pick_role_discount]
            rw [hrid, hpct]
            simp only []
            rw [if_pos hcond]
          rw [hres] at h
          obtain ⟨h1, h2⟩ : rid0 = rid ∧ pct0 = pct := by
            have := Option.some.inj h
            exact ⟨congrArg Prod.fst this, congrArg Prod.snd this⟩
          subst h1
          subst h2
          refine ⟨⟨r, List.mem_cons_self _ _, hrid, hpct, ?_⟩, ?_⟩
          · unfold isHeldTier
            rw [hrid, hpct]
            exact decide_eq_true hcond
          · intro r2 hr2 _
            rcases List.mem_cons.mp hr2 with heq | hmem
            · subst heq
              unfold roleSortKey
              rw [hpct]
              rfl
            · have := hphead r2 hmem
              unfold roleDescBool at this
              rw [decide_eq_true_iff] at this
              calc roleSortKey r2 ≤ roleSortKey r := this
                _ = pct0 := by unfold roleSortKey; rw [hpct]; rfl
        · have hrec : pick_role_discount ur (r :: rest) = pick_role_discount ur rest := by
            simp only [pick_role_discount]
            rw [hrid, hpct]
            simp only []
            rw [if_neg hcond]
          rw [hrec] at h
          obtain ⟨⟨w, hw, hw1, hw2, hw3⟩, hbound⟩ := ih hp2 h
          refine ⟨⟨w, List.mem_cons_of_mem _ hw, hw1, hw2, hw3⟩, ?_⟩
          intro r2 hr2 hheld
          rcases List.mem_cons.mp hr2 with heq | hmem
          · subst heq
            unfold isHeldTier at hheld
            rw [hrid, hpct] at hheld
            simp only [] at hheld
            rw [decide_eq_false hcond] at hheld
            cases hheld
          · exact hbound r2 hmem hheld

/-- C5: when confirm proceeds (non-empty cart, stock validation passing) on
behalf of a guild member: if no manual discount is set (discount 0), the
order written by confirm carries a discount of cart subtotal times the
highest percentage among the configured tier roles the actor holds
(divided by 100), applied only when that amount exceeds zero; and if a
manual discount is set (discount > 0) it takes precedence — the order
carries exactly the manual discount and no tier discount is added. -/
theorem confirm_tier_discount (ts : TicketState) (userId : Nat)
    (userRoles : List Nat) (products : List (String × Product)) (n : Nat)
    (orders : List (String × Order)) (config : BotConfig) (ch : Nat)
    (now : Int) (pg : Bool) (best : ℚ)
    (hc : ts.cart ≠ [])
    (hv : validate_stock products ts.cart = none) :
    (ts.discount.getD 0 = 0 →
      best ∈ heldPercents userRoles config.role_based_discounts →
      (∀ p ∈ heldPercents userRoles config.role_based_discounts, p ≤ best) →
      ∃ o, lookup? (order_id_of (n + 1))
          (confirm ts userId true userRoles products n orders config ch now pg).orders = some o ∧
        o.discount = (if 0 < cartSubtotal ts.cart * (best / 100)
          then cartSubtotal ts.cart * (best / 100) else 0)) ∧
    (0 < ts.discount.getD 0 →
      ∃ o, lookup? (order_id_of (n + 1))
          (confirm ts userId true userRoles products n orders config ch now pg).orders = some o ∧
        o.discount = ts.discount.getD 0) := by
  constructor
  · intro h0 hmem hbd
    have hpair : List.Pairwise (fun a b => roleDescBool a b = true)
        (sorted_role_discounts config.role_based_discounts) := by
      unfold sorted_role_discounts
      exact List.sorted_mergeSort roleDescBool_trans roleDescBool_total _
    rcases hpick : pick_role_discount userRoles
        (sorted_role_discounts config.role_based_discounts) with _ | ⟨rid, pct⟩
    · exfalso
      have hall := pick_role_none _ _ hpick
      unfold heldPercents at hmem
      obtain ⟨r, hr, hrkey⟩ := List.mem_map.mp hmem
      have hrf := List.mem_filter.mp hr
      have hrin : r ∈ sorted_role_discounts config.role_based_discounts := by
        unfold sorted_role_discounts
        exact List.mem_mergeSort.mpr hrf.1
      have hfalse := hall r hrin
      rw [hrf.2] at hfalse
      cases hfalse
    · have hspec := pick_role_some userRoles _ rid pct hpair hpick
      have hple : pct ≤ best := by
        apply hbd
        unfold heldPercents
        obtain ⟨⟨r, hr, h1, h2, h3⟩, _⟩ := hspec
        apply List.mem_map.mpr
        refine ⟨r, List.mem_filter.mpr ⟨?_, h3⟩, ?_⟩
        · unfold sorted_role_discounts at hr
          exact List.mem_mergeSort.mp hr
        · unfold roleSortKey
          rw [h2]
          rfl
      have hbge : best ≤ pct := by
        unfold heldPercents at hmem
        obtain ⟨r, hr, hrkey⟩ := List.mem_map.mp hmem
        have hrf := List.mem_filter.mp hr
        have hrin : r ∈ sorted_role_discounts config.role_based_discounts := by
          unfold sorted_role_discounts
          exact List.mem_mergeSort.mpr hrf.1
        have hle2 := hspec.2 r hrin hrf.2
        rw [hrkey] at hle2
        exact hle2
      have hpb : pct = best := le_antisymm hple hbge
      subst hpb
      unfold confirm
      rw [if_neg hc, hv]
      simp only []
      rw [if_pos (show ts.discount.getD 0 = 0 ∧ True from ⟨h0, trivial⟩)]
      rw [hpick]
      simp only []
      rw [h0]
      by_cases hlt : (0 : ℚ) < cartSubtotal ts.cart * (pct / 100)
      · rw [if_pos hlt, if_pos hlt]
        cases pg
        · exact ⟨_, lookup?_dictSet_self _ _ _, rfl⟩
        · exact ⟨_, lookup?_dictSet_self _ _ _, rfl⟩
      · rw [if_neg hlt, if_neg hlt]
        cases pg
        · exact ⟨_, lookup?_dictSet_self _ _ _, rfl⟩
        · exact ⟨_, lookup?_dictSet_self _ _ _, rfl⟩
  · intro hman
    unfold confirm
    rw [if_neg hc, hv]
    simp only []
    rw [if_neg (show ¬(ts.discount.getD 0 = 0 ∧ True) from
      fun hcontra => absurd hcontra.1 (ne_of_gt hman))]
    simp only []
    cases pg
    · exact ⟨_, lookup?_dictSet_self _ _ _, rfl⟩
    · exact ⟨_, lookup?_dictSet_self _ _ _, rfl⟩

theorem confirm_tier_discount_witness :
    (sampleTicketReady.cart ≠ [] ∧
      validate_stock [("p1", sampleProductA)] sampleTicketReady.cart = none ∧
      (10 : ℚ) ∈ heldPercents [5] sampleConfigTier.role_based_discounts) ∧
    (∃ o, lookup? (order_id_of 1)
        (confirm sampleTicketReady 1 true [5] [("p1", sampleProductA)] 0 []
          sampleConfigTier 42 0 true).orders = some o ∧
      o.discount = (if 0 < cartSubtotal sampleTicketReady.cart * (10 / 100)
        then cartSubtotal sampleTicketReady.cart * (10 / 100) else 0)) :=
  ⟨⟨by decide, by decide, by decide⟩,
    (confirm_tier_discount sampleTicketReady 1 [5] [("p1", sampleProductA)] 0 []
      sampleConfigTier 42 0 true 10 (by decide) (by decide)).1 rfl (by decide) (by decide)⟩
